import Mathlib

/-!
# Verification of svg-resize

A shallow embedding of `src/svg-resize.py` (a script that resizes an SVG
document to a target page size and optionally adds a white printing frame),
together with theorems settling the specification claims about it.

Modelling conventions:
* Python floats are modelled as exact rationals (`ℚ`); every numeric literal
  appearing in the source is an exact decimal, so the rational semantics agrees
  with the intent of the arithmetic.
* The XML document is reduced to the three attributes the script reads
  (`width`, `height`, `viewBox`, each an optional string) — the script touches
  nothing else of the input document.
* Mutations performed by the script (`svg.set(...)`, appending the frame
  subtree) are recorded as an ordered list of `WriteEvent`s; the numeric
  payload of each event is the exact value the script formats into the
  attribute string.
* Exceptions are modelled with `Except` / an explicit error component.  In the
  source every `raise` happens in lines 55-95, strictly before the first
  `svg.set` call (line 119), and no statement from line 119 on can raise
  (all divisors are provably nonzero there), so the plan-then-write structure
  of `resize_svg` below is an exact rendering of the control flow.
-/

/-- The exceptions raised by the script (all are `Exception(...)` in Python;
we distinguish them by their message). -/
inductive SvgError
  | formatError (text : String)     -- 'Unknown length format: "{text}"' (line 32)
  | unsupportedUnit (units : String)  -- 'Unknown length units: {units}' (line 50)
  | missingDimensions               -- line 56
  | invalidDimensions               -- line 72
  deriving DecidableEq

/-- The unit suffixes captured by the regex group `(px|in|cm|mm|pt|pc|%)` on
line 30.  (`in` is a Lean keyword, hence `inch`.)  The final
`else: raise Exception('Unknown length units')` branch of `parse_length` is
unreachable in the source because the regex group can only capture these seven
alternatives; the `SvgError.unsupportedUnit` constructor exists so that
theorems can talk about that error. -/
inductive LengthUnit
  | px | pt | pc | inch | mm | cm | percent
  deriving DecidableEq

/-- ASCII whitespace, as matched by the regex class `\s` and by
`str.strip()` (restricted to the ASCII range, which covers every input the
spec contemplates). -/
def isSpaceCh (c : Char) : Bool :=
  c = ' ' || c = '\t' || c = '\n' || c = '\r' || c = '\x0B' || c = '\x0C'

/-- `\s*` at the start of a match position: drop leading whitespace. -/
def dropSpaces (l : List Char) : List Char := l.dropWhile isSpaceCh

/-- Python `str.strip()`: remove whitespace from both ends. -/
def stripEnds (l : List Char) : List Char :=
  ((l.dropWhile isSpaceCh).reverse.dropWhile isSpaceCh).reverse

/-- `\d+` (greedy): the longest run of leading digits, and the rest. -/
def spanDigits : List Char → List Char × List Char
  | [] => ([], [])
  | c :: cs =>
    if c.isDigit then
      let r := spanDigits cs
      (c :: r.1, r.2)
    else ([], c :: cs)

/-- Numeric value of a digit run (most significant first). -/
def digitsVal (ds : List Char) : ℕ :=
  ds.foldl (fun a c => 10 * a + (c.toNat - 48)) 0

/-- Value of the decimal literal captured by group 1 of the regex:
optional minus sign, integer digits, optional fractional digits.
(`float(parts.group(1))` in the source; exact for decimal literals.) -/
def numberVal (neg : Bool) (ip fp : List Char) : ℚ :=
  let m : ℚ := (digitsVal ip : ℚ) + (digitsVal fp : ℚ) / (10 : ℚ) ^ fp.length
  if neg then -m else m

/-- The unit group `(px|in|cm|mm|pt|pc|%)?` tried at a position: the
alternatives are mutually exclusive, so trying them in order is the same as
this pattern match. -/
def matchUnit : List Char → Option LengthUnit
  | 'p' :: 'x' :: _ => some .px
  | 'i' :: 'n' :: _ => some .inch
  | 'c' :: 'm' :: _ => some .cm
  | 'm' :: 'm' :: _ => some .mm
  | 'p' :: 't' :: _ => some .pt
  | 'p' :: 'c' :: _ => some .pc
  | '%' :: _ => some .percent
  | _ => none

/-- The `-?` of the regex: consume an optional leading minus sign. -/
def signSplit (l : List Char) : Bool × List Char :=
  match l with
  | '-' :: r => (true, r)
  | _ => (false, l)

/-- Embedding of `re.match(r'^\s*(-?\d+(?:\.\d+)?)\s*(px|in|cm|mm|pt|pc|%)?', value)`
(line 30).  `re.match` anchors only at the start: trailing text that fits no
group is simply ignored.  Returns the numeric value of group 1 and the
captured unit of group 2 (or `none` when the optional group did not match). -/
def matchLength (l : List Char) : Option (ℚ × Option LengthUnit) :=
  let negSplit := signSplit (dropSpaces l)
  let ip := (spanDigits negSplit.2).1
  let rest1 := (spanDigits negSplit.2).2
  if ip = [] then none
  else
    let fracSplit : List Char × List Char :=
      match rest1 with
      | '.' :: r => if (spanDigits r).1 = [] then ([], rest1) else spanDigits r
      | _ => ([], rest1)
    some (numberVal negSplit.1 ip fracSplit.1, matchUnit (dropSpaces fracSplit.2))

/-- Whether the text begins — after optional whitespace and an optional minus
sign — with a decimal digit.  This is exactly the condition for the regex of
`parse_length` to find a match (`matchLength_none_iff`). -/
def numberStart (l : List Char) : Bool :=
  match (signSplit (dropSpaces l)).2 with
  | c :: _ => c.isDigit
  | [] => false

/-- The unit-conversion ladder of `parse_length` (lines 35-48). -/
def unitToPixels (num : ℚ) (units : LengthUnit) : ℚ :=
  match units with
  | .px => num
  | .pt => num * 1.25
  | .pc => num * 15.0
  | .inch => num * 90.0
  | .mm => num * 3.543307
  | .cm => num * 35.43307
  | .percent => -num / 100.0

/-- Embedding of `parse_length(value, def_units)` (lines 26-50).
Empty input returns 0.0; a failed regex match raises the format error; an
absent unit group falls back to `def_units`.  The `Unknown length units`
branch of the source is unreachable (see `LengthUnit`). -/
def parse_length (value : String) (def_units : LengthUnit) : Except SvgError ℚ :=
  if value = "" then .ok 0
  else
    match matchLength value.data with
    | none => .error (.formatError value)
    | some nu => .ok (unitToPixels nu.1 (nu.2.getD def_units))

/-- The separator class of `re.split('[ ,\t]+', ...)` (line 59). -/
def isSepCh (c : Char) : Bool := c = ' ' || c = ',' || c = '\t'

mutual

/-- `re.split('[ ,\t]+', s)`: accumulate the current token (reversed). -/
def splitSepsTok (cur : List Char) : List Char → List (List Char)
  | [] => [cur.reverse]
  | c :: cs =>
    if isSepCh c then cur.reverse :: splitSepsSkip cs
    else splitSepsTok (c :: cur) cs

/-- `re.split('[ ,\t]+', s)`: inside a separator run; a run at the very end
contributes a final empty token, exactly as `re.split` does. -/
def splitSepsSkip : List Char → List (List Char)
  | [] => [[]]
  | c :: cs =>
    if isSepCh c then splitSepsSkip cs
    else splitSepsTok [c] cs

end

/-- `re.split('[ ,\t]+', s)` on a whole string. -/
def splitSeps (l : List Char) : List (List Char) := splitSepsTok [] l

/-- A parsed viewBox `[min-x, min-y, width, height]` (the list built on
lines 59-62). -/
structure ViewBox where
  x : ℚ
  y : ℚ
  w : ℚ
  h : ℚ
  deriving DecidableEq

/-- Lines 61-64: parse the four viewBox tokens in index order (default unit
px, as `parse_length` is called with one argument), then invalidate the
viewBox when `viewbox[2] * viewbox[3] <= 0`. -/
def parseVB4 (a b c d : List Char) : Except SvgError (Option ViewBox) :=
  match parse_length (String.mk a) .px with
  | .error e => .error e
  | .ok x =>
    match parse_length (String.mk b) .px with
    | .error e => .error e
    | .ok y =>
      match parse_length (String.mk c) .px with
      | .error e => .error e
      | .ok w =>
        match parse_length (String.mk d) .px with
        | .error e => .error e
        | .ok h => if w * h ≤ 0 then .ok none else .ok (some ⟨x, y, w, h⟩)

/-- Lines 59-66: split the (stripped) `viewBox` attribute on `[ ,\t]+`; any
token count other than four invalidates the viewBox. -/
def parseViewBox (s : String) : Except SvgError (Option ViewBox) :=
  match splitSeps (stripEnds s.data) with
  | [a, b, c, d] => parseVB4 a b c d
  | _ => .ok none

/-- The attributes of the root SVG element that the script reads. -/
structure SvgDoc where
  width : Option String
  height : Option String
  viewBox : Option String
  deriving DecidableEq

/-- The option dictionary after `prepare_options` (lines 10-24): the four
size options default to `None`, `margin` defaults to `"0"`, the flags to
false.  `trim` is declared and defaulted by the source but never read. -/
structure SvgOptions where
  width : Option String
  height : Option String
  longest : Option String
  shortest : Option String
  margin : String
  trim : Bool
  frame : Bool
  deriving DecidableEq

/-- All options left at their `prepare_options` defaults. -/
def defaultOptions : SvgOptions := ⟨none, none, none, none, "0", false, false⟩

/-- The data of the frame subtree appended on lines 136-145: one `g` layer
containing one `path` whose `style` is the literal written on line 143 and
whose `d` attribute is
`'M {outerX} {outerY} v {outerH} h {outerW} v -{outerH} z M {innerX} {innerY} h {innerW} v {innerH} h -{innerW} z'`
— an outer closed rectangle with corner `(outerX, outerY)` and size
`outerW × outerH`, and an inner closed rectangle with corner
`(innerX, innerY)` and size `innerW × innerH`. -/
structure FrameData where
  outerX : ℚ
  outerY : ℚ
  outerW : ℚ
  outerH : ℚ
  innerX : ℚ
  innerY : ℚ
  innerW : ℚ
  innerH : ℚ
  style : String
  deriving DecidableEq

/-- One mutation of the document, in the order the script performs them.
The `set*` events carry the exact number formatted into the attribute
(`'{}px'.format(v)` for width/height, the four viewBox numbers for
`setViewBox`). -/
inductive WriteEvent
  | setWidth (v : ℚ)
  | setHeight (v : ℚ)
  | setViewBox (x y w h : ℚ)
  | addFrame (f : FrameData)
  deriving DecidableEq

/-- Lines 80-83 guard the option parses by Python string truthiness
(`if options['width']:`): an absent or empty option string leaves the axis
unset, otherwise it is parsed with default unit mm. -/
def optValue (o : Option String) : Except SvgError (Option ℚ) :=
  match o with
  | none => .ok none
  | some s =>
    if s = "" then .ok none
    else
      match parse_length s .mm with
      | .error e => .error e
      | .ok v => .ok (some v)

/-- Lines 84-89: `longest` assigns to `twidth` when `width > height`, else to
`theight`. -/
def applyLongest (width height : ℚ) (tw th : Option ℚ) (value : Option ℚ) :
    Option ℚ × Option ℚ :=
  match value with
  | none => (tw, th)
  | some v => if width > height then (some v, th) else (tw, some v)

/-- Lines 90-95: `shortest` assigns to `twidth` when `width < height`, else to
`theight`. -/
def applyShortest (width height : ℚ) (tw th : Option ℚ) (value : Option ℚ) :
    Option ℚ × Option ℚ :=
  match value with
  | none => (tw, th)
  | some v => if width < height then (some v, th) else (tw, some v)

/-- Lines 80-95: resolve the raw target box from the four size options, in
source order: explicit width/height, then longest, then shortest. -/
def resolveTargets (width height : ℚ) (tw th tl ts : Option ℚ) :
    Option ℚ × Option ℚ :=
  let p := applyLongest width height tw th tl
  applyShortest width height p.1 p.2 ts

/-- Lines 98-107 for one axis.  `if twidth:` is Python float truthiness, so a
value of exactly 0 is left untouched; otherwise a negative value is a
percentage scale (`-src * v`) and a positive one loses the margins
(`max(0, v - margin * 2)`). -/
def normalizeTarget (src margin : ℚ) (t : Option ℚ) : Option ℚ :=
  match t with
  | none => none
  | some v =>
    if v = 0 then some v
    else if v < 0 then some (-src * v)
    else some (max 0 (v - margin * 2))

/-- Python float truthiness of the optional target values on lines 98-116:
`None` and `0.0` are falsy. -/
def qTruthy (t : Option ℚ) : Bool :=
  match t with
  | none => false
  | some v => v ≠ 0

/-- Lines 109-116: default an unset (falsy) target box from the source
dimensions, deriving a single unset axis by the source aspect ratio.  The
second `if not theight:` of the source re-tests `theight` after the first
block, which is what the sequential lets reproduce. -/
def defaultTargets (width height : ℚ) (tw th : Option ℚ) : ℚ × ℚ :=
  let s1 : ℚ × Option ℚ :=
    if qTruthy tw then (tw.getD 0, th)
    else if qTruthy th then ((th.getD 0) / height * width, th)
    else (width, some height)
  let theight := if qTruthy s1.2 then (s1.2).getD 0 else s1.1 / width * height
  (s1.1, theight)

/-- Lines 98-116 combined: normalize both axes, then apply the defaulting
rules; yields the final content-box `twidth`/`theight`. -/
def contentBox (width height margin : ℚ) (tw th : Option ℚ) : ℚ × ℚ :=
  defaultTargets width height (normalizeTarget width margin tw)
    (normalizeTarget height margin th)

/-- The placement data computed on lines 121-131. -/
structure Placement where
  page_width : ℚ
  page_height : ℚ
  offsetx : ℚ
  offsety : ℚ
  deriving DecidableEq

/-- Lines 121-131: compare target and source aspect ratios and letterbox the
narrower direction, centering the source in the page. -/
def placement (viewbox : ViewBox) (twidth theight : ℚ) : Placement :=
  if twidth / theight > viewbox.w / viewbox.h then
    let page_width := viewbox.h / theight * twidth
    ⟨page_width, viewbox.h, (page_width - viewbox.w) / 2, 0⟩
  else
    let page_height := viewbox.w / twidth * theight
    ⟨viewbox.w, page_height, 0, (page_height - viewbox.h) / 2⟩

/-- Line 132: the margin converted into viewport units. -/
def vbMargin (page_width twidth margin : ℚ) : ℚ := page_width / twidth * margin

/-- Line 133: the four numbers written into the new `viewBox` attribute. -/
def newViewBox (vb : ViewBox) (p : Placement) (vbm : ℚ) : ViewBox :=
  ⟨vb.x - vbm - p.offsetx, vb.y - vbm - p.offsety,
   p.page_width + vbm * 2, p.page_height + vbm * 2⟩

/-- Lines 136-145: the frame path data.  Note the source writes
`-viewbox[0] - vb_margin - offsetx - bleed` (with a minus sign in front of
`viewbox[0]`) for the outer corner. -/
def frameData (vb : ViewBox) (p : Placement) (vbm : ℚ) : FrameData :=
  let bleed := min p.page_width p.page_height / 100
  { outerX := -vb.x - vbm - p.offsetx - bleed
    outerY := -vb.y - vbm - p.offsety - bleed
    outerW := p.page_width + (vbm + bleed) * 2
    outerH := p.page_height + (vbm + bleed) * 2
    innerX := vb.x
    innerY := vb.y
    innerW := vb.w
    innerH := vb.h
    style := "fill:#ffffff;stroke:none" }

/-- Lines 98-145 (everything after the last possible raise): compute the
target box, placement, new viewBox and optional frame, and emit the document
writes in source order. -/
def resizeCore (width height : ℚ) (viewbox : ViewBox) (margin : ℚ)
    (tw0 th0 tl ts : Option ℚ) (frame : Bool) : List WriteEvent :=
  let r := resolveTargets width height tw0 th0 tl ts
  let tb := contentBox width height margin r.1 r.2
  let twidth := tb.1
  let theight := tb.2
  let p := placement viewbox twidth theight
  let vbm := vbMargin p.page_width twidth margin
  let nvb := newViewBox viewbox p vbm
  let base := [WriteEvent.setWidth (twidth + margin * 2),
               WriteEvent.setHeight (theight + margin * 2),
               WriteEvent.setViewBox nvb.x nvb.y nvb.w nvb.h]
  if frame then base ++ [WriteEvent.addFrame (frameData viewbox p vbm)]
  else base

/-- Lines 52-116: everything `resize_svg` does up to and including the last
statement that can raise, producing the list of writes it will perform.  The
parses happen in source order (width, height, viewBox tokens, margin, width
option, height option, longest, shortest), so the first failing parse
determines the raised error exactly as in the source. -/
def resizePlan (doc : SvgDoc) (opts : SvgOptions) : Except SvgError (List WriteEvent) :=
  match doc.width, doc.height with
  | some wstr, some hstr =>
    (match parse_length wstr .px with
     | .error e => .error e
     | .ok width0 =>
       match parse_length hstr .px with
       | .error e => .error e
       | .ok height0 =>
         match parseViewBox (doc.viewBox.getD "") with
         | .error e => .error e
         | .ok vb0 =>
           match (if width0 ≤ 0 ∨ height0 ≤ 0 then
                    match vb0 with
                    | some vb => .ok (vb.w, vb.h)
                    | none => .error SvgError.invalidDimensions
                  else .ok (width0, height0) : Except SvgError (ℚ × ℚ)) with
           | .error e => .error e
           | .ok wh =>
             match parse_length opts.margin .mm with
             | .error e => .error e
             | .ok margin =>
               match optValue opts.width with
               | .error e => .error e
               | .ok tw0 =>
                 match optValue opts.height with
                 | .error e => .error e
                 | .ok th0 =>
                   match optValue opts.longest with
                   | .error e => .error e
                   | .ok tl =>
                     match optValue opts.shortest with
                     | .error e => .error e
                     | .ok ts =>
                       .ok (resizeCore wh.1 wh.2 (vb0.getD ⟨0, 0, wh.1, wh.2⟩)
                              margin tw0 th0 tl ts opts.frame))
  | _, _ => .error SvgError.missingDimensions

/-- Embedding of `resize_svg(tree, options)` (lines 52-145): the ordered list
of mutations applied to the document, paired with the raised error if any.
In the source every raise precedes the first `svg.set` (see `resizePlan`), so
an error leaves the write list empty. -/
def resize_svg (doc : SvgDoc) (opts : SvgOptions) : List WriteEvent × Option SvgError :=
  match resizePlan doc opts with
  | .ok evs => (evs, none)
  | .error e => ([], some e)

/-! ## Helper lemmas -/

theorem matchLength_none_iff (l : List Char) :
    matchLength l = none ↔ numberStart l = false := by
  unfold matchLength numberStart
  rcases ht : (signSplit (dropSpaces l)).2 with _ | ⟨c, cs⟩
  · simp [ht, spanDigits]
  · by_cases h : c.isDigit <;> simp [ht, spanDigits, h]

theorem qTruthy_none : qTruthy none = false := rfl

theorem qTruthy_some_zero : qTruthy (some 0) = false := by
  simp [qTruthy]

theorem defaultTargets_some_zero_left (w h : ℚ) (th : Option ℚ) :
    defaultTargets w h (some 0) th = defaultTargets w h none th := by
  simp [defaultTargets, qTruthy_some_zero, qTruthy_none]

theorem defaultTargets_some_zero_right (w h : ℚ) (tw : Option ℚ) :
    defaultTargets w h tw (some 0) = defaultTargets w h tw none := by
  by_cases htw : qTruthy tw <;>
    simp [defaultTargets, htw, qTruthy_some_zero, qTruthy_none]

/-! ## Claims -/

/-- C3: `parse_length` is linear in the numeric value with exactly the
documented conversion factors (px 1, pt 1.25, pc 15, in 90, mm 3.543307,
cm 35.43307, % ↦ `-(n/100)`); a missing suffix uses the supplied default
unit; `parse_length "50%" = -0.5`, `parse_length "1in" = 90`, and empty input
returns 0. -/
theorem parse_length_conversions :
    (∀ n : ℚ,
      unitToPixels n .px = n ∧
      unitToPixels n .pt = n * 1.25 ∧
      unitToPixels n .pc = n * 15 ∧
      unitToPixels n .inch = n * 90 ∧
      unitToPixels n .mm = n * 3.543307 ∧
      unitToPixels n .cm = n * 35.43307 ∧
      unitToPixels n .percent = -(n / 100)) ∧
    (∀ (s : String) (d : LengthUnit) (n : ℚ) (u : LengthUnit),
      matchLength s.data = some (n, some u) →
      parse_length s d = .ok (unitToPixels n u)) ∧
    (∀ (s : String) (d : LengthUnit) (n : ℚ),
      matchLength s.data = some (n, none) →
      parse_length s d = .ok (unitToPixels n d)) ∧
    parse_length "50%" .px = .ok (-(1 / 2)) ∧
    parse_length "1in" .px = .ok 90 ∧
    parse_length "" .px = .ok 0 := by
  refine ⟨?_, ?_, ?_, by with_unfolding_all rfl, by with_unfolding_all rfl,
    by with_unfolding_all rfl⟩
  · intro n
    refine ⟨rfl, rfl, ?_, ?_, rfl, rfl, ?_⟩ <;> norm_num [unitToPixels, neg_div]
  · intro s d n u hm
    by_cases hs : s = ""
    · subst hs
      rw [show matchLength "".data = none from rfl] at hm
      exact absurd hm (by simp)
    · simp [parse_length, hs, hm]
  · intro s d n hm
    by_cases hs : s = ""
    · subst hs
      rw [show matchLength "".data = none from rfl] at hm
      exact absurd hm (by simp)
    · simp [parse_length, hs, hm]

/-- Witness for C3: instantiating the default-unit clause at `"2cm"`. -/
theorem parse_length_conversions_witness :
    parse_length "2cm" .px = .ok (unitToPixels 2 .cm) :=
  parse_length_conversions.2.1 "2cm" .px 2 .cm (by with_unfolding_all rfl)

/-- C4: the target-box options are applied in the order width/height, then
longest (to the axis whose source dimension is strictly larger, the height
axis on a tie), then shortest (to the axis whose source dimension is strictly
smaller, the height axis on a tie), each later rule overwriting an earlier
assignment to the same axis; when longest and shortest target the same axis
(exactly the case `width = height`), shortest's value is kept. -/
theorem resolveTargets_precedence (w h : ℚ) (ow oh : Option ℚ) (l s : ℚ) :
    resolveTargets w h ow oh none none = (ow, oh) ∧
    resolveTargets w h ow oh (some l) none =
      (if w > h then (some l, oh) else (ow, some l)) ∧
    resolveTargets w h ow oh none (some s) =
      (if w < h then (some s, oh) else (ow, some s)) ∧
    (w ≠ h → resolveTargets w h ow oh (some l) (some s) =
      (if w > h then (some l, some s) else (some s, some l))) ∧
    (w = h → resolveTargets w h ow oh (some l) (some s) = (ow, some s)) := by
  refine ⟨rfl, ?_, ?_, ?_, ?_⟩
  · by_cases hgt : w > h <;> simp [resolveTargets, applyLongest, applyShortest, hgt]
  · by_cases hlt : w < h <;> simp [resolveTargets, applyLongest, applyShortest, hlt]
  · intro hne
    by_cases hgt : w > h
    · simp [resolveTargets, applyLongest, applyShortest, hgt, lt_asymm hgt]
    · have hlt : w < h := lt_of_le_of_ne (not_lt.mp hgt) hne
      simp [resolveTargets, applyLongest, applyShortest, hgt, hlt]
  · intro heq
    subst heq
    simp [resolveTargets, applyLongest, applyShortest, lt_irrefl]

/-- Witness for C4: with equal source dimensions both longest and shortest
target the height axis and shortest's value is kept. -/
theorem resolveTargets_precedence_witness :
    resolveTargets 5 5 none none (some 1) (some 2) = (none, some 2) :=
  (resolveTargets_precedence 5 5 none none 1 2).2.2.2.2 rfl

/-- C9: whenever `resize_svg` raises, the document is left completely
unchanged: no attribute write and no appended subtree has happened, because
in the source every raise (lines 55-95) precedes the first attribute write
(line 119). -/
theorem resize_error_atomicity (doc : SvgDoc) (opts : SvgOptions) (e : SvgError)
    (h : (resize_svg doc opts).2 = some e) : (resize_svg doc opts).1 = [] := by
  unfold resize_svg at h ⊢
  cases hp : resizePlan doc opts <;> simp [hp] at h ⊢

/-- Witness for C9: a document with no width/height attributes raises
`missingDimensions` and produces no writes. -/
theorem resize_error_atomicity_witness :
    (resize_svg ⟨none, none, none⟩ defaultOptions).2 = some SvgError.missingDimensions ∧
    (resize_svg ⟨none, none, none⟩ defaultOptions).1 = [] :=
  ⟨rfl,
   resize_error_atomicity ⟨none, none, none⟩ defaultOptions
     SvgError.missingDimensions rfl⟩

/-- C10: a target value of exactly zero is indistinguishable from an absent
option — whether it came from an option that parses to 0 or from the
`max(0, v - margin*2)` clamp, the axis falls back to the default /
aspect-ratio derivation of lines 109-116; concretely, a width option of
`"0"` yields the same writes as no width option at all. -/
theorem zero_target_treated_unset (w h m v : ℚ) (tw th : Option ℚ)
    (hv : v = 0 ∨ (0 < v ∧ v - m * 2 ≤ 0)) :
    contentBox w h m (some v) th = contentBox w h m none th ∧
    contentBox w h m tw (some v) = contentBox w h m tw none ∧
    resize_svg ⟨some "100px", some "50px", some "0 0 100 50"⟩
        ⟨some "0", none, none, none, "0", false, false⟩ =
      resize_svg ⟨some "100px", some "50px", some "0 0 100 50"⟩ defaultOptions := by
  have hn : ∀ src : ℚ, normalizeTarget src m (some v) = some 0 := by
    intro src
    rcases hv with rfl | ⟨h1, h2⟩
    · simp [normalizeTarget]
    · simp [normalizeTarget, h1.ne', not_lt.mpr h1.le, max_eq_left h2]
  refine ⟨?_, ?_, by with_unfolding_all rfl⟩
  · rw [contentBox, contentBox, hn, normalizeTarget, defaultTargets_some_zero_left]
  · rw [contentBox, contentBox, hn, normalizeTarget, defaultTargets_some_zero_right]

/-- Witness for C10: a zero width target with default height falls back to
the source box. -/
theorem zero_target_treated_unset_witness :
    ((0 : ℚ) = 0 ∨ (0 < (0 : ℚ) ∧ (0 : ℚ) - 0 * 2 ≤ 0)) ∧
    contentBox 100 50 0 (some 0) none = contentBox 100 50 0 none none :=
  ⟨Or.inl rfl, (zero_target_treated_unset 100 50 0 0 none none (Or.inl rfl)).1⟩

theorem qTruthy_true_getD (t : Option ℚ) (h : qTruthy t = true) : t.getD 0 ≠ 0 := by
  cases t with
  | none => simp [qTruthy] at h
  | some v => simpa [qTruthy] using h

/-- C1: steps 7-8 of the spec.  Per-axis normalization: a negative resolved
value `v` becomes `-v * source_dimension`, a positive one becomes
`max 0 (v - 2*margin)`.  Afterwards (`unset` being Python falsiness: absent
or zero) an unset pair defaults to the source box, and a single unset axis is
derived so that `twidth/theight = width/height`; the spec's worked example
(a 100×50 px document with only `width "210mm"`) gives declared width
`210mm = 744.09447 px` (plus `2*margin = 0`) and a 2:1 content box. -/
theorem target_resolution_steps78 (w h m : ℚ) (tw th : Option ℚ)
    (hw : w ≠ 0) (hh : h ≠ 0) :
    (∀ v : ℚ, v < 0 → normalizeTarget w m (some v) = some (-v * w)) ∧
    (∀ v : ℚ, 0 < v → normalizeTarget w m (some v) = some (max 0 (v - 2 * m))) ∧
    (qTruthy (normalizeTarget w m tw) = false →
      qTruthy (normalizeTarget h m th) = false →
      contentBox w h m tw th = (w, h)) ∧
    (qTruthy (normalizeTarget w m tw) = true →
      qTruthy (normalizeTarget h m th) = false →
      (contentBox w h m tw th).1 = (normalizeTarget w m tw).getD 0 ∧
      (contentBox w h m tw th).1 / (contentBox w h m tw th).2 = w / h) ∧
    (qTruthy (normalizeTarget w m tw) = false →
      qTruthy (normalizeTarget h m th) = true →
      (contentBox w h m tw th).2 = (normalizeTarget h m th).getD 0 ∧
      (contentBox w h m tw th).1 / (contentBox w h m tw th).2 = w / h) ∧
    resize_svg ⟨some "100px", some "50px", some "0 0 100 50"⟩
        ⟨some "210mm", none, none, none, "0", false, false⟩ =
      ([.setWidth (74409447 / 100000), .setHeight (74409447 / 200000),
        .setViewBox 0 0 100 50], none) := by
  refine ⟨?_, ?_, ?_, ?_, ?_, by with_unfolding_all rfl⟩
  · intro v hv
    simp [normalizeTarget, ne_of_lt hv, hv, mul_comm]
  · intro v hv
    simp [normalizeTarget, ne_of_gt hv, not_lt.mpr hv.le, mul_comm]
  · intro htw hth
    simp only [contentBox, defaultTargets, htw, hth, Bool.false_eq_true, if_false]
    simp [qTruthy, hh]
  · intro htw hth
    have hg : (normalizeTarget w m tw).getD 0 ≠ 0 := qTruthy_true_getD _ htw
    constructor
    · simp [contentBox, defaultTargets, htw]
    · simp only [contentBox, defaultTargets, htw, hth, if_true,
        Bool.false_eq_true, if_false]
      field_simp
      ring
  · intro htw hth
    have hg : (normalizeTarget h m th).getD 0 ≠ 0 := qTruthy_true_getD _ hth
    constructor
    · simp [contentBox, defaultTargets, htw, hth]
    · simp only [contentBox, defaultTargets, htw, hth, if_true,
        Bool.false_eq_true, if_false]
      field_simp
      ring

/-- Witness for C1: with no options at all the content box defaults to the
source 100×50 box. -/
theorem target_resolution_steps78_witness :
    (100 : ℚ) ≠ 0 ∧ (50 : ℚ) ≠ 0 ∧
    contentBox 100 50 0 none none = (100, 50) :=
  ⟨by norm_num, by norm_num,
   (target_resolution_steps78 100 50 0 none none (by norm_num) (by norm_num)).2.2.1
     rfl rfl⟩

/-- C2 (amended): placement and the written viewBox follow the steps 10-12
formulas exactly: in the relatively-wider branch
`page_width = viewbox.height/theight * twidth`,
`offsetx = (page_width - viewbox.width)/2` (strictly positive whenever the
viewbox height is positive), `page_height = viewbox.height` and
`offsety = 0`; otherwise `page_width = viewbox.width`,
`page_height = viewbox.width/twidth * theight`,
`offsety = (page_height - viewbox.height)/2` and `offsetx = 0`; and with
`vb_margin = page_width/twidth * margin` the written viewBox is
`[x - vb_margin - offsetx, y - vb_margin - offsety,
page_width + 2*vb_margin, page_height + 2*vb_margin]`. -/
theorem placement_viewbox_formulas (vb : ViewBox) (tw th m : ℚ) :
    (vb.w / vb.h < tw / th →
      placement vb tw th =
        ⟨vb.h / th * tw, vb.h, (vb.h / th * tw - vb.w) / 2, 0⟩ ∧
      (0 < vb.h → 0 < (placement vb tw th).offsetx)) ∧
    (¬ vb.w / vb.h < tw / th →
      placement vb tw th =
        ⟨vb.w, vb.w / tw * th, 0, (vb.w / tw * th - vb.h) / 2⟩) ∧
    (∀ p : Placement,
      newViewBox vb p (vbMargin p.page_width tw m) =
        ⟨vb.x - p.page_width / tw * m - p.offsetx,
         vb.y - p.page_width / tw * m - p.offsety,
         p.page_width + 2 * (p.page_width / tw * m),
         p.page_height + 2 * (p.page_width / tw * m)⟩) := by
  refine ⟨?_, ?_, ?_⟩
  · intro hgt
    have hpl : placement vb tw th =
        ⟨vb.h / th * tw, vb.h, (vb.h / th * tw - vb.w) / 2, 0⟩ := by
      rw [placement, if_pos hgt]
    refine ⟨hpl, ?_⟩
    intro hh0
    have e1 : vb.h / th * tw - vb.w = vb.h * (tw / th - vb.w / vb.h) := by
      rw [mul_sub, mul_comm vb.h (vb.w / vb.h), div_mul_cancel₀ _ hh0.ne']
      ring
    have key : 0 < vb.h * (tw / th - vb.w / vb.h) :=
      mul_pos hh0 (sub_pos.mpr hgt)
    rw [hpl]
    show 0 < (vb.h / th * tw - vb.w) / 2
    rw [e1]
    exact half_pos key
  · intro hng
    rw [placement, if_neg hng]
  · intro p
    simp only [newViewBox, vbMargin, ViewBox.mk.injEq]
    refine ⟨by ring, by ring, by ring, by ring⟩

/-- Witness for C2's amended theorem: a 2:1 viewBox placed into a 210×50
target box letterboxes horizontally with a positive horizontal offset. -/
theorem placement_viewbox_formulas_witness :
    placement ⟨0, 0, 100, 50⟩ 210 50 =
      ⟨(50 : ℚ) / 50 * 210, 50, ((50 : ℚ) / 50 * 210 - 100) / 2, 0⟩ ∧
    0 < (placement ⟨0, 0, 100, 50⟩ 210 50).offsetx :=
  ⟨((placement_viewbox_formulas ⟨0, 0, 100, 50⟩ 210 50 0).1 (by norm_num)).1,
   ((placement_viewbox_formulas ⟨0, 0, 100, 50⟩ 210 50 0).1 (by norm_num)).2
     (by norm_num)⟩

/-- Counterexample to C2 as stated: on a document whose declared sizes are 0
and whose viewBox has negative width and height (the `viewbox[2]*viewbox[3]`
check only rejects a non-positive product), resize succeeds, the
relatively-wider branch is taken (`2/1 > (-1)/(-1)`), yet the computed
horizontal offset is negative, not positive as the claim asserts. -/
theorem placement_offsetx_counterexample :
    resize_svg ⟨some "0", some "0", some "-1 -1 -1 -1"⟩
        ⟨some "2px", some "1px", none, none, "0", false, false⟩ =
      ([.setWidth 2, .setHeight 1, .setViewBox (-(1 / 2)) (-1) (-2) (-1)], none) ∧
    ((-1 : ℚ) / (-1) < 2 / 1) ∧
    (placement ⟨-1, -1, -1, -1⟩ 2 1).offsetx = -(1 / 2) ∧
    (placement ⟨-1, -1, -1, -1⟩ 2 1).offsetx < 0 := by
  refine ⟨by with_unfolding_all rfl, by norm_num, by with_unfolding_all rfl, ?_⟩
  rw [show (placement ⟨-1, -1, -1, -1⟩ 2 1).offsetx = -(1 / 2) from
    by with_unfolding_all rfl]
  norm_num

theorem normalizeTarget_nonpos (src m1 m2 : ℚ) (t : Option ℚ)
    (ht : ∀ v, t = some v → v ≤ 0) :
    normalizeTarget src m1 t = normalizeTarget src m2 t := by
  cases t with
  | none => rfl
  | some v =>
    have hv := ht v rfl
    by_cases h0 : v = 0
    · simp [normalizeTarget, h0]
    · have hlt : v < 0 := lt_of_le_of_ne hv h0
      simp [normalizeTarget, h0, hlt]

/-- C5 (amended): when neither resolved target value is a positive absolute
length (each axis is absent or a percentage/zero value, which normalization
maps independently of the margin), increasing the margin by δ leaves the
content box `twidth`/`theight` unchanged and increases the declared width
and height (`twidth + margin*2` and `theight + margin*2`, the numbers
written by lines 119-120) by exactly `2*δ`.  For a positive absolute target
the subtraction `max(0, v - margin*2)` makes the content box shrink with the
margin instead, so the declared size stays constant — see the
counterexample. -/
theorem margin_shift (w h m d : ℚ) (tw th : Option ℚ)
    (htw : ∀ v, tw = some v → v ≤ 0) (hth : ∀ v, th = some v → v ≤ 0)
    (hd : 0 < d) :
    contentBox w h (m + d) tw th = contentBox w h m tw th ∧
    (contentBox w h (m + d) tw th).1 + (m + d) * 2 =
      ((contentBox w h m tw th).1 + m * 2) + 2 * d ∧
    (contentBox w h (m + d) tw th).2 + (m + d) * 2 =
      ((contentBox w h m tw th).2 + m * 2) + 2 * d := by
  have hc : contentBox w h (m + d) tw th = contentBox w h m tw th := by
    rw [contentBox, contentBox, normalizeTarget_nonpos w (m + d) m tw htw,
        normalizeTarget_nonpos h (m + d) m th hth]
  refine ⟨hc, ?_, ?_⟩ <;> rw [hc] <;> ring

/-- Witness for C5's amended theorem: with no size options at all the content
box is margin-independent and the declared sizes grow by `2*δ`. -/
theorem margin_shift_witness :
    contentBox 3 4 (0 + 1) none none = contentBox 3 4 0 none none :=
  (margin_shift 3 4 0 1 none none (fun _ hv => nomatch hv)
    (fun _ hv => nomatch hv) one_pos).1

/-- Counterexample to C5 as stated: for the 100×50 px document with the
positive absolute option `width "210mm"`, raising the margin from "0" to
"1mm" (δ = 3.543307 px > 0) leaves the written declared width unchanged at
744.09447 px (the claim demands an increase of 2*δ), and changes the
resolved content-box width (the claim demands it stay unchanged). -/
theorem margin_shift_counterexample :
    (resize_svg ⟨some "100px", some "50px", some "0 0 100 50"⟩
        ⟨some "210mm", none, none, none, "0", false, false⟩).1.head? =
      some (WriteEvent.setWidth (74409447 / 100000)) ∧
    (resize_svg ⟨some "100px", some "50px", some "0 0 100 50"⟩
        ⟨some "210mm", none, none, none, "1mm", false, false⟩).1.head? =
      some (WriteEvent.setWidth (74409447 / 100000)) ∧
    parse_length "1mm" .mm = .ok (3543307 / 1000000) ∧
    (0 : ℚ) < 3543307 / 1000000 ∧
    normalizeTarget 100 (3543307 / 1000000) (some (74409447 / 100000)) = some (46062991 / 62500) ∧
    normalizeTarget 100 0 (some (74409447 / 100000)) = some (74409447 / 100000) ∧
    (46062991 / 62500 : ℚ) ≠ 74409447 / 100000 := by
  refine ⟨by with_unfolding_all rfl, by with_unfolding_all rfl,
    by with_unfolding_all rfl, by norm_num, by with_unfolding_all rfl,
    by with_unfolding_all rfl, by norm_num⟩

theorem parseVB4_pos (a b c d : List Char) (vb : ViewBox)
    (h : parseVB4 a b c d = .ok (some vb)) : 0 < vb.w * vb.h := by
  unfold parseVB4 at h
  cases hx : parse_length (String.mk a) .px with
  | error e => simp [hx] at h
  | ok x =>
    simp only [hx] at h
    cases hy : parse_length (String.mk b) .px with
    | error e => simp [hy] at h
    | ok y =>
      simp only [hy] at h
      cases hwv : parse_length (String.mk c) .px with
      | error e => simp [hwv] at h
      | ok wv =>
        simp only [hwv] at h
        cases hhv : parse_length (String.mk d) .px with
        | error e => simp [hhv] at h
        | ok hv =>
          simp only [hhv] at h
          by_cases hle : wv * hv ≤ 0
          · rw [if_pos hle] at h
            simp at h
          · rw [if_neg hle] at h
            simp only [Except.ok.injEq, Option.some.injEq] at h
            rw [← h]
            exact not_le.mp hle

theorem parseViewBox_pos (s : String) (vb : ViewBox)
    (h : parseViewBox s = .ok (some vb)) : 0 < vb.w * vb.h := by
  unfold parseViewBox at h
  rcases hts : splitSeps (stripEnds s.data) with _ | ⟨a, _ | ⟨b, _ | ⟨c, _ | ⟨d, _ | ⟨e, rest⟩⟩⟩⟩⟩ <;>
    rw [hts] at h
  · simp at h
  · simp at h
  · simp at h
  · simp at h
  · exact parseVB4_pos a b c d vb h
  · simp at h

theorem resizeCore_identity (w h : ℚ) (vb : ViewBox) (hw : 0 < w) (hh : 0 < h)
    (hvbh : vb.h ≠ 0) (hratio : w / h = vb.w / vb.h) :
    resizeCore w h vb 0 none none none none false =
      [.setWidth w, .setHeight h, .setViewBox vb.x vb.y vb.w vb.h] := by
  have hcb : contentBox w h 0 none none = (w, h) := by
    simp [contentBox, normalizeTarget, defaultTargets, qTruthy, hh.ne']
  have hph : vb.w / w * h = vb.h := by
    have hx : w * vb.h = vb.w * h := (div_eq_div_iff hh.ne' hvbh).mp hratio
    field_simp [hw.ne']
    linarith
  have hpl : placement vb w h = ⟨vb.w, vb.h, 0, 0⟩ := by
    rw [placement, if_neg (by rw [hratio]; exact lt_irrefl _)]
    simp only [hph]
    simp
  simp only [resizeCore, resolveTargets, applyLongest, applyShortest, hcb, hpl,
    vbMargin, newViewBox]
  norm_num

/-- C6 (amended): with no size options and zero margin, a document with
positive declared width/height and a usable viewBox whose aspect ratio
matches the declared `width/height` ratio passes through unchanged: the
written width and height equal the parsed declared values and the written
viewBox is the original one.  (When the declared ratio differs from the
viewBox ratio the declared sizes are still preserved but the viewBox is
re-centred — see the counterexample.) -/
theorem identity_passthrough (wstr hstr vstr : String) (w h : ℚ) (vb : ViewBox)
    (hwp : parse_length wstr .px = .ok w) (hhp : parse_length hstr .px = .ok h)
    (hw : 0 < w) (hh : 0 < h)
    (hvb : parseViewBox vstr = .ok (some vb))
    (hratio : w / h = vb.w / vb.h) :
    resize_svg ⟨some wstr, some hstr, some vstr⟩ defaultOptions =
      ([.setWidth w, .setHeight h, .setViewBox vb.x vb.y vb.w vb.h], none) := by
  have hprod : 0 < vb.w * vb.h := parseViewBox_pos vstr vb hvb
  have hvbh : vb.h ≠ 0 := by
    intro h0
    rw [h0, mul_zero] at hprod
    exact lt_irrefl 0 hprod
  have hcond : ¬ (w ≤ 0 ∨ h ≤ 0) := by
    push_neg
    exact ⟨hw, hh⟩
  have hplan : resizePlan ⟨some wstr, some hstr, some vstr⟩ defaultOptions =
      .ok (resizeCore w h vb 0 none none none none false) := by
    simp only [resizePlan, defaultOptions, Option.getD_some, hwp, hhp, hvb, hcond,
      if_false, optValue,
      show parse_length "0" LengthUnit.mm = .ok 0 from by with_unfolding_all rfl]
  unfold resize_svg
  rw [hplan, resizeCore_identity w h vb hw hh hvbh hratio]

/-- Witness for C6's amended theorem: the 100×50 px document with viewBox
`0 0 100 50` is passed through unchanged. -/
theorem identity_passthrough_witness :
    parse_length "100px" .px = .ok 100 ∧
    resize_svg ⟨some "100px", some "50px", some "0 0 100 50"⟩ defaultOptions =
      ([.setWidth 100, .setHeight 50, .setViewBox 0 0 100 50], none) :=
  ⟨by with_unfolding_all rfl,
   identity_passthrough "100px" "50px" "0 0 100 50" 100 50 ⟨0, 0, 100, 50⟩
     (by with_unfolding_all rfl) (by with_unfolding_all rfl) (by norm_num)
     (by norm_num) (by with_unfolding_all rfl) (by norm_num)⟩

/-- Counterexample to C6 as stated: the document `width="200px"
height="50px" viewBox="0 0 100 50"` has positive declared sizes and a usable
viewBox, yet with no options and zero margin the written viewBox is
`-50 0 200 50`, not the original `0 0 100 50` (the declared 4:1 ratio
differs from the viewBox's 2:1 ratio, so the content is letterboxed). -/
theorem identity_passthrough_counterexample :
    resize_svg ⟨some "200px", some "50px", some "0 0 100 50"⟩ defaultOptions =
      ([.setWidth 200, .setHeight 50, .setViewBox (-50) 0 200 50], none) ∧
    parseViewBox "0 0 100 50" = .ok (some ⟨0, 0, 100, 50⟩) ∧
    (-50 : ℚ) ≠ 0 := by
  refine ⟨by with_unfolding_all rfl, by with_unfolding_all rfl, by norm_num⟩

/-- C7 (code bug, evaluated at the failing input): for the document
`width="100px" height="50px" viewBox="10 0 100 50"` with the frame option,
exactly one frame subtree is appended and its inner rectangle matches the
original viewport `10 0 100 50`, but the outer rectangle's corner is at
x = `-viewbox.x - vb_margin - offsetx - bleed` = `-21/2`, not at
`viewbox.x - vb_margin - offsetx - bleed` = `10 - 1/2` (one bleed outside
the corner of the written viewBox `10 0 100 50`): the source negates
`viewbox[0]`/`viewbox[1]` on line 145, so the frame misses the page
whenever the viewBox origin is nonzero. -/
theorem frame_outer_misplaced :
    resize_svg ⟨some "100px", some "50px", some "10 0 100 50"⟩
        ⟨none, none, none, none, "0", false, true⟩ =
      ([.setWidth 100, .setHeight 50, .setViewBox 10 0 100 50,
        .addFrame ⟨-21 / 2, -1 / 2, 101, 51, 10, 0, 100, 50,
          "fill:#ffffff;stroke:none"⟩], none) ∧
    (-21 / 2 : ℚ) ≠ 10 - 1 / 2 ∧
    resize_svg ⟨some "100px", some "50px", some "10 0 100 50"⟩
        ⟨none, none, none, none, "0", false, false⟩ =
      ([.setWidth 100, .setHeight 50, .setViewBox 10 0 100 50], none) := by
  refine ⟨by with_unfolding_all rfl, by norm_num, by with_unfolding_all rfl⟩

/-- C8 (amended): `parse_length` raises the FormatError (naming the
offending text) exactly on the non-empty inputs that do not begin — after
optional whitespace and an optional minus sign — with a decimal digit; it
raises no other error (in particular never the unsupported-unit error, whose
branch is unreachable because the regex group only captures the seven known
suffixes); any other trailing text, including an unrecognized unit suffix,
is ignored and the default unit applies; every other input returns a
value. -/
theorem parse_length_error_conditions (s : String) (d : LengthUnit) :
    (parse_length s d = .error (.formatError s) ↔
      s ≠ "" ∧ numberStart s.data = false) ∧
    (∀ e, parse_length s d = .error e → e = .formatError s) ∧
    ((∃ q, parse_length s d = .ok q) ↔ s = "" ∨ numberStart s.data = true) := by
  by_cases hs : s = ""
  · subst hs
    refine ⟨by simp [parse_length], ?_, by simp [parse_length]⟩
    intro e he
    simp [parse_length] at he
  · cases hm : matchLength s.data with
    | none =>
      have hns := (matchLength_none_iff s.data).mp hm
      refine ⟨by simp [parse_length, hs, hm, hns], ?_, ?_⟩
      · intro e he
        simp only [parse_length, if_neg hs, hm] at he
        exact (Except.error.injEq _ _).mp he.symm ▸ rfl
      · simp [parse_length, hs, hm, hns]
    | some nu =>
      have hns : numberStart s.data = true := by
        cases hb : numberStart s.data with
        | false =>
          rw [← matchLength_none_iff] at hb
          rw [hb] at hm
          exact absurd hm (by simp)
        | true => rfl
      refine ⟨by simp [parse_length, hs, hm, hns], ?_, ?_⟩
      · intro e he
        simp [parse_length, hs, hm] at he
      · exact ⟨fun _ => Or.inr hns,
          fun _ => ⟨unitToPixels nu.1 (nu.2.getD d), by simp [parse_length, hs, hm]⟩⟩

/-- Witness for C8's amended theorem: `"abc"` is non-empty and does not begin
with a number, so it raises the FormatError naming the text. -/
theorem parse_length_error_conditions_witness :
    parse_length "abc" .px = .error (.formatError "abc") :=
  (parse_length_error_conditions "abc" .px).1.mpr ⟨by decide, rfl⟩

/-- Counterexample to C8 as stated: the input `"10em"` carries the
unsupported unit suffix `em`, yet `parse_length` does not raise the
unsupported-unit error — the regex leaves the optional unit group unmatched,
so the value parses as 10 in the default unit. -/
theorem unsupported_unit_counterexample :
    parse_length "10em" .px = .ok 10 ∧
    parse_length "10em" .px ≠ .error (.unsupportedUnit "em") := by
  have he : parse_length "10em" .px = .ok 10 := by with_unfolding_all rfl
  refine ⟨he, ?_⟩
  rw [he]
  simp
